import Mathlib

/-!
Verification of the priority-aware webhook scheduling service.

This file gives a shallow embedding, in Lean 4, of the service's source
(src/index.ts and src/queue.ts, current revision): the two-queue priority
model, the job processor, the fixed five-worker pool with its periodic
rebalancer, the shutdown path, and the HTTP response mapping.  Stateful
TypeScript is embedded as explicit state passing; the runtime environment
(the observed HIGH-queue depth, which worker close calls fail, which
worker constructions fail) is an explicit `Env` record; fallible code
returns `Except` or carries an explicit error field.  External collaborator
behaviour that the repository only configures (the queue layer's
retry/backoff driver, the HTTP framework's default error handler) is
modelled from the spec, and marked as such in doc comments.
-/

/-- The two priority classes, 'HIGH' | 'LOW' in queue.ts. -/
inductive QueueType where
  | HIGH
  | LOW
deriving DecidableEq, Repr

/-- JSON values, as produced by the JavaScript JSON.parse used by the
handler (index.ts) and by response.json() in the job processor.  Numbers
keep their source text. -/
inductive Json where
  | null
  | jbool (b : Bool)
  | jnum (text : String)
  | jstr (s : String)
  | jarr (elems : List Json)
  | jobj (fields : List (String × Json))

/-- A thrown JavaScript error, identified by its message (the only part of
an Error the source ever inspects). -/
structure JsError where
  message : String
deriving DecidableEq, Repr

/- ===== A JSON parser, embedding the JavaScript JSON grammar used by
JSON.parse (index.ts line 113) and response.json() (queue.ts line 49). -/

/-- JSON insignificant whitespace. -/
def isJsonWs (c : Char) : Bool :=
  c = ' ' || c = '\t' || c = '\n' || c = '\r'

/-- Drop leading JSON whitespace. -/
def skipWs : List Char → List Char
  | [] => []
  | c :: cs => if isJsonWs c then skipWs cs else c :: cs

/-- The opening-brace character of a JSON object. -/
def lbraceChar : Char := Char.ofNat 123

/-- The closing-brace character of a JSON object. -/
def rbraceChar : Char := Char.ofNat 125

/-- Value of a hexadecimal digit, for string escapes of the form backslash-u. -/
def hexDigitVal (c : Char) : Option Nat :=
  if c.isDigit then some (c.toNat - 48)
  else if 'a' ≤ c ∧ c ≤ 'f' then some (c.toNat - 87)
  else if 'A' ≤ c ∧ c ≤ 'F' then some (c.toNat - 55)
  else none

/-- Decoding of a single-character JSON string escape. -/
def escCharVal (e : Char) : Option Char :=
  if e = '"' ∨ e = '\\' ∨ e = '/' then some e
  else if e = 'b' then some (Char.ofNat 8)
  else if e = 'f' then some (Char.ofNat 12)
  else if e = 'n' then some '\n'
  else if e = 'r' then some '\r'
  else if e = 't' then some '\t'
  else none

/-- Body of a JSON string after the opening quote: returns the decoded
characters and the remainder after the closing quote.  Fuel-indexed so the
definition is structurally recursive. -/
def parseStringBody : Nat → List Char → Option (List Char × List Char)
  | 0, _ => none
  | _ + 1, [] => none
  | fuel + 1, c :: cs =>
    if c = '"' then some ([], cs)
    else if c = '\\' then
      match cs with
      | [] => none
      | e :: cs2 =>
        if e = 'u' then
          match cs2 with
          | h1 :: h2 :: h3 :: h4 :: cs3 =>
            match hexDigitVal h1, hexDigitVal h2, hexDigitVal h3, hexDigitVal h4 with
            | some a, some b, some c2, some d =>
              (parseStringBody fuel cs3).map
                (fun p => (Char.ofNat (((a * 16 + b) * 16 + c2) * 16 + d) :: p.1, p.2))
            | _, _, _, _ => none
          | _ => none
        else
          match escCharVal e with
          | some ec => (parseStringBody fuel cs2).map (fun p => (ec :: p.1, p.2))
          | none => none
    else if c.toNat < 32 then none
    else (parseStringBody fuel cs).map (fun p => (c :: p.1, p.2))

/-- Optional fraction part of a JSON number. -/
def parseFracPart (cs : List Char) : Option (List Char × List Char) :=
  match cs with
  | '.' :: t =>
    let fp := t.takeWhile Char.isDigit
    if fp = [] then none
    else some ('.' :: fp, t.dropWhile Char.isDigit)
  | _ => some ([], cs)

/-- Optional exponent part of a JSON number. -/
def parseExpPart (cs : List Char) : Option (List Char × List Char) :=
  match cs with
  | c :: t =>
    if c = 'e' ∨ c = 'E' then
      let st :=
        match t with
        | '+' :: u => (['+'], u)
        | '-' :: u => (['-'], u)
        | _ => (([] : List Char), t)
      let ds := st.2.takeWhile Char.isDigit
      if ds = [] then none
      else some (c :: st.1 ++ ds, st.2.dropWhile Char.isDigit)
    else some ([], cs)
  | [] => some ([], cs)

/-- JSON number: optional minus, integer part without a superfluous leading
zero, optional fraction, optional exponent.  Keeps the source text. -/
def parseNumber (cs : List Char) : Option (Json × List Char) :=
  let sp :=
    match cs with
    | '-' :: t => ((['-'] : List Char), t)
    | _ => (([] : List Char), cs)
  match sp.2 with
  | [] => none
  | c :: _ =>
    if c.isDigit then
      let ip := sp.2.takeWhile Char.isDigit
      let r1 := sp.2.dropWhile Char.isDigit
      if 1 < ip.length ∧ ip.headD '0' = '0' then none
      else
        match parseFracPart r1 with
        | none => none
        | some (fp, r2) =>
          match parseExpPart r2 with
          | none => none
          | some (ep, r3) => some (Json.jnum (String.mk (sp.1 ++ ip ++ fp ++ ep)), r3)
    else none

mutual

/-- One JSON value (null, booleans, strings, arrays, objects, numbers),
returning the remainder.  Fuel-indexed mutual structural recursion. -/
def parseJsonVal : Nat → List Char → Option (Json × List Char)
  | 0, _ => none
  | fuel + 1, cs =>
    match cs with
    | 'n' :: 'u' :: 'l' :: 'l' :: rest => some (Json.null, rest)
    | 't' :: 'r' :: 'u' :: 'e' :: rest => some (Json.jbool true, rest)
    | 'f' :: 'a' :: 'l' :: 's' :: 'e' :: rest => some (Json.jbool false, rest)
    | '"' :: rest =>
      (parseStringBody (rest.length + 1) rest).map
        (fun p => (Json.jstr (String.mk p.1), p.2))
    | '[' :: rest =>
      (parseArrayElems fuel (skipWs rest)).map (fun p => (Json.jarr p.1, p.2))
    | c :: _ =>
      if c = lbraceChar then
        (parseObjFields fuel (skipWs ((cs.tail)))).map (fun p => (Json.jobj p.1, p.2))
      else if c = '-' ∨ c.isDigit then parseNumber cs
      else none
    | [] => none

/-- Elements of a JSON array after the opening bracket (whitespace already
skipped), up to and including the closing bracket. -/
def parseArrayElems : Nat → List Char → Option (List Json × List Char)
  | 0, _ => none
  | fuel + 1, cs =>
    match cs with
    | ']' :: rest => some ([], rest)
    | _ =>
      match parseJsonVal fuel cs with
      | none => none
      | some (v, rest) =>
        match skipWs rest with
        | ',' :: rest2 =>
          match parseArrayElems fuel (skipWs rest2) with
          | some (vs, rest3) => some (v :: vs, rest3)
          | none => none
        | ']' :: rest2 => some ([v], rest2)
        | _ => none

/-- Fields of a JSON object after the opening brace (whitespace already
skipped), up to and including the closing brace. -/
def parseObjFields : Nat → List Char → Option (List (String × Json) × List Char)
  | 0, _ => none
  | fuel + 1, cs =>
    match cs with
    | [] => none
    | c :: rest =>
      if c = rbraceChar then some ([], rest)
      else if c = '"' then
        match parseStringBody (rest.length + 1) rest with
        | none => none
        | some (key, rest2) =>
          match skipWs rest2 with
          | ':' :: rest3 =>
            match parseJsonVal fuel (skipWs rest3) with
            | none => none
            | some (v, rest4) =>
              match skipWs rest4 with
              | ',' :: rest5 =>
                match parseObjFields fuel (skipWs rest5) with
                | some (fs, rest6) => some ((String.mk key, v) :: fs, rest6)
                | none => none
              | c2 :: rest5 =>
                if c2 = rbraceChar then some ([(String.mk key, v)], rest5)
                else none
              | [] => none
          | _ => none
      else none

end

/-- JavaScript JSON.parse: a whole input parses to one value with only
whitespace around it, otherwise the parse throws (modelled as none). -/
def jsonParse (s : String) : Option Json :=
  match parseJsonVal (2 * s.data.length + 2) (skipWs s.data) with
  | some (v, rest) => if skipWs rest = [] then some v else none
  | none => none

/- ===== Decimal rendering of a number, as JavaScript template interpolation
of response.status performs in queue.ts line 46. -/

/-- The character of one decimal digit. -/
def digitChar (d : Nat) : Char := Char.ofNat (48 + d)

/-- Numeric value of a decimal digit character. -/
def charVal (c : Char) : Nat := c.toNat - 48

/-- Big-endian decimal digits of a positive number, fuel-indexed. -/
def natToDecCharsAux : Nat → Nat → List Char
  | 0, _ => []
  | fuel + 1, n =>
    if n = 0 then []
    else natToDecCharsAux fuel (n / 10) ++ [digitChar (n % 10)]

/-- Decimal rendering of a natural number, as JavaScript renders it. -/
def natToDecChars (n : Nat) : List Char :=
  if n = 0 then ['0'] else natToDecCharsAux n n

/-- Numeric value of a big-endian decimal digit string, as parseInt reads
the capture of the status group in index.ts line 112. -/
def digitsToNat (cs : List Char) : Nat :=
  Nat.ofDigits 10 ((cs.map charVal).reverse)

/-- The literal prefix of the error message thrown by the job processor on
a downstream rejection. -/
def n8nMarker : List Char := "N8N Error ".data

/-- The message of the error thrown in queue.ts line 46 on a non-ok
downstream response: the template N8N Error status colon-space text. -/
def n8nErrorMessage (status : Nat) (bodyText : String) : String :=
  String.mk (n8nMarker ++ natToDecChars status ++ ':' :: ' ' :: bodyText.data)

/- ===== The job processor (queue.ts lines 31-60, current revision). -/

/-- Result value returned by processWebhookJob on success
(queue.ts lines 51-55). -/
structure JobResult where
  success : Bool
  status : Nat
  data : Json

/-- Outcome of the one fetch call to the downstream webhook: either the
promise rejected (transport error) or it resolved with a status code and a
response body text. -/
inductive FetchOutcome where
  | rejected (message : String)
  | resolved (status : Nat) (bodyText : String)

/-- The fetch Response.ok flag: status in the range 200 to 299. -/
def resOk (status : Nat) : Bool := decide (200 ≤ status ∧ status ≤ 299)

/-- The error thrown when response.json() fails on a non-JSON success
body; its runtime text is engine-dependent, modelled by this rendering. -/
def responseJsonFailure (bodyText : String) : JsError :=
  ⟨String.append "SyntaxError in JSON body: " bodyText⟩

/-- Embeds processWebhookJob (queue.ts lines 31-60): one downstream call;
a non-ok response becomes a thrown N8N Error carrying the downstream
status and body text; the catch block re-throws every error so the queue
layer sees the failure (line 58). -/
def processWebhookJob (r : FetchOutcome) : Except JsError JobResult :=
  match r with
  | FetchOutcome.rejected msg => Except.error ⟨msg⟩
  | FetchOutcome.resolved status bodyText =>
    if resOk status then
      match jsonParse bodyText with
      | some result => Except.ok ⟨true, status, result⟩
      | none => Except.error (responseJsonFailure bodyText)
    else Except.error ⟨n8nErrorMessage status bodyText⟩

/-- The attempt cap configured on submitted jobs (index.ts line 87). -/
def jobAttempts : Nat := 3

/-- The exponential backoff base delay in milliseconds configured on
submitted jobs (index.ts line 90). -/
def jobBackoffDelay : Nat := 2000

/-- A downstream call that fails in the sense of the spec: the transport
failed, or the downstream answered with a non-ok status. -/
def downstreamFailed (r : FetchOutcome) : Prop :=
  (∃ msg, r = FetchOutcome.rejected msg) ∨
    (∃ status bodyText, r = FetchOutcome.resolved status bodyText ∧ resOk status = false)

/-- Modelled from the spec: the queue layer's retry driver (spec sections
4.2 and 7), which the repository only configures; it re-runs a job whose
processor threw, up to the attempt cap, sleeping the exponential backoff
delay base times two to the power attempts-made between attempts, and
delivers the final outcome.  Arguments: the downstream outcome of each
attempt (1-indexed), the current attempt number, the attempts remaining.
Returns the terminal outcome and the list of backoff delays slept. -/
def runJobAttempts (resp : Nat → FetchOutcome) : Nat → Nat → Except JsError JobResult × List Nat
  | _, 0 => (Except.error ⟨"no attempts configured"⟩, [])
  | k, 1 => (processWebhookJob (resp k), [])
  | k, n + 2 =>
    match processWebhookJob (resp k) with
    | Except.ok v => (Except.ok v, [])
    | Except.error _ =>
      let rest := runJobAttempts resp (k + 1) (n + 1)
      (rest.1, jobBackoffDelay * 2 ^ (k - 1) :: rest.2)

/-- A full job run under the configured options: first attempt 1, cap 3.
Modelled from the spec: the terminal outcome is what the completion bridge
delivers to the blocked caller (spec section 4.6). -/
def runJob (resp : Nat → FetchOutcome) : Except JsError JobResult × List Nat :=
  runJobAttempts resp 1 jobAttempts

/- ===== The regular-expression relay of N8N errors
(index.ts lines 109-117). -/

/-- Characters the regular-expression dot matches (not line breaks). -/
def notLineBreak (c : Char) : Bool := c != '\n' && c != '\r'

/-- The capture of a greedy dot-plus group: the maximal line-break-free
run. -/
def takeLine (cs : List Char) : List Char := cs.takeWhile notLineBreak

/-- One anchored attempt of the regular expression
N8N Error digits colon-space rest-of-line at the head of the input:
the marker, then at least one digit, then colon and space, then a
non-empty line-break-free capture. -/
def matchN8NAt (cs : List Char) : Option (Nat × String) :=
  if n8nMarker.isPrefixOf cs then
    let rest := cs.drop n8nMarker.length
    let ds := rest.takeWhile Char.isDigit
    if ds = [] then none
    else
      match rest.dropWhile Char.isDigit with
      | ':' :: ' ' :: rest2 =>
        let cap := takeLine rest2
        if cap = [] then none else some (digitsToNat ds, String.mk cap)
      | _ => none
  else none

/-- The unanchored JavaScript match: try every start position from the
left. -/
def matchN8N : List Char → Option (Nat × String)
  | [] => none
  | c :: cs =>
    match matchN8NAt (c :: cs) with
    | some r => some r
    | none => matchN8N cs

/-- Substring containment over character lists. -/
def listContains (pat : List Char) (l : List Char) : Bool :=
  match l with
  | [] => pat.isPrefixOf []
  | _ :: cs => pat.isPrefixOf l || listContains pat cs

/-- The JavaScript String.includes test used in index.ts line 109. -/
def strIncludes (s pat : String) : Bool := listContains pat.data s.data

/- ===== The HTTP layer (index.ts). -/

/-- Bodies the server sends: a JSON value relayed or returned, the
job-failed wrapper, the structured internal-error object of index.ts
lines 119-122, the framework's default error body, the legacy endpoint's
bodies. -/
inductive ReplyBody where
  | json (j : Json)
  | jobFailed (r : JobResult)
  | internalError (message : String)
  | fastifyDefault (message : String)
  | addJobError (message : String)
  | okTrue

/-- An HTTP response as the caller sees it. -/
structure HttpResponse where
  status : Nat
  body : ReplyBody

/-- What the route handler itself does: reply, or throw out of the
handler. -/
inductive HandlerOutcome where
  | reply (status : Nat) (body : ReplyBody)
  | thrown (e : JsError)

/-- Embeds the terminal-outcome mapping of the high-priority route handler
(index.ts lines 98-123): a resolved job result is sent with its status
(200 when falsy) and data; a rejected wait whose message includes
N8N Error and matches the relay pattern is re-parsed and relayed with the
downstream status; JSON.parse throwing escapes the handler; everything
else gets the structured 500. -/
def highPriorityHandler (outcome : Except JsError JobResult) : HandlerOutcome :=
  match outcome with
  | Except.ok result =>
    if result.success then
      HandlerOutcome.reply (if result.status = 0 then 200 else result.status)
        (ReplyBody.json result.data)
    else HandlerOutcome.reply 500 (ReplyBody.jobFailed result)
  | Except.error err =>
    if strIncludes err.message "N8N Error" then
      match matchN8N err.message.data with
      | some (status, captured) =>
        match jsonParse captured with
        | some errorData => HandlerOutcome.reply status (ReplyBody.json errorData)
        | none => HandlerOutcome.thrown (responseJsonFailure captured)
      | none =>
        HandlerOutcome.reply 500 (ReplyBody.internalError err.message)
    else HandlerOutcome.reply 500 (ReplyBody.internalError err.message)

/-- Modelled from the spec: the HTTP framework's handling of a route
handler whose promise rejects — the caller receives a generic structured
500 (spec section 7, never partial or garbled state). -/
def serverResponse (h : HandlerOutcome) : HttpResponse :=
  match h with
  | HandlerOutcome.reply status body => ⟨status, body⟩
  | HandlerOutcome.thrown e => ⟨500, ReplyBody.fastifyDefault e.message⟩

/-- The response of the high-priority route to a terminal job outcome. -/
def webhookResponse (outcome : Except JsError JobResult) : HttpResponse :=
  serverResponse (highPriorityHandler outcome)

/-- Query parameters of the legacy add-job endpoint (index.ts). -/
structure AddJobQuery where
  id : Option String
  email : Option String
deriving DecidableEq

/-- One job enqueued by the legacy endpoint. -/
structure EnqueuedJob where
  queue : QueueType
  name : String
  dataEmail : String
  dataId : String
deriving DecidableEq

/-- JavaScript falsiness of an optional string parameter: absent, or the
empty string. -/
def jsFalsyStr (o : Option String) : Bool :=
  match o with
  | none => true
  | some s => s = ""

/-- Embeds the legacy add-job handler (index.ts lines 200-212): a falsy id
or email yields the 400 error body and enqueues nothing; otherwise one job
named TestJob-id with the email and id is added to the high-priority
queue and the handler replies ok. -/
def addJobHandler (q : AddJobQuery) : HttpResponse × List EnqueuedJob :=
  if jsFalsyStr q.email || jsFalsyStr q.id then
    (⟨400, ReplyBody.addJobError "Requests must contain both an id and a email"⟩, [])
  else
    let email := q.email.getD ""
    let id := q.id.getD ""
    (⟨200, ReplyBody.okTrue⟩, [⟨QueueType.HIGH, "TestJob-" ++ id, email, id⟩])

/- ===== The smart worker pool (queue.ts, current revision). -/

/-- One underlying BullMQ worker instance; gen distinguishes distinct
instances over a worker slot's lifetime (a recreated instance has a new
gen). -/
structure WorkerInstance where
  queueName : String
  queueType : QueueType
  workerId : Nat
  gen : Nat
deriving DecidableEq, Repr

/-- Embeds createWorkerForQueue (queue.ts lines 73-92): a fresh worker
instance listening on the given queue. -/
def createWorkerForQueue (queueName : String) (queueType : QueueType)
    (workerId : Nat) (gen : Nat) : WorkerInstance :=
  ⟨queueName, queueType, workerId, gen⟩

/-- The SmartWorker record of queue.ts lines 62-66. -/
structure SmartWorker where
  worker : WorkerInstance
  currentQueue : QueueType
  id : Nat
deriving DecidableEq, Repr

/-- The module state of queue.ts: the smartWorkers array and the
monitoring interval handle. -/
structure PoolState where
  workers : List SmartWorker
  interval : Option Nat
deriving DecidableEq, Repr

/-- The runtime environment a tick or a setup call observes: what reading
the HIGH queue depth returns (or throws), which worker close calls fail,
which worker constructions throw, and the fresh interval handle. -/
structure Env where
  depthResult : Except JsError Nat
  closeFails : Nat → Bool
  createFails : Nat → Bool
  newIntervalId : Nat

/-- The rebalancing decision of monitorAndRebalance (queue.ts lines
128-136): depth at least 5 targets HIGH, depth exactly 0 targets LOW, and
the remaining 1-to-4 branch targets HIGH. -/
def targetQueue (highJobsCount : Nat) : QueueType :=
  if highJobsCount ≥ 5 then QueueType.HIGH
  else if highJobsCount = 0 then QueueType.LOW
  else QueueType.HIGH

/-- The binary policy stated by the spec, written from the spec's words
(target is LOW iff the observed HIGH depth is 0) for comparison with the
code's three-branch decision. -/
def specBinaryTarget (highDepth : Nat) : QueueType :=
  if highDepth = 0 then QueueType.LOW else QueueType.HIGH

/-- The error a failing worker close call rejects with. -/
def closeFailure : JsError := ⟨"close failed"⟩

/-- Result of one switchWorkerToQueue call: the worker slot afterwards,
the error the call rejected with if any, and the gens of instances whose
close was invoked. -/
structure SwitchResult where
  worker : SmartWorker
  err : Option JsError
  closedCalls : List Nat
deriving DecidableEq, Repr

/-- Embeds switchWorkerToQueue (queue.ts lines 94-109): a worker already
on the requested queue returns untouched at line 95; otherwise the old
instance is closed and a fresh instance on the other queue replaces it;
a close failure is logged and re-thrown, leaving the slot unchanged. -/
def switchWorkerToQueue (env : Env) (smartWorker : SmartWorker)
    (newQueueType : QueueType) : SwitchResult :=
  if smartWorker.currentQueue = newQueueType then ⟨smartWorker, none, []⟩
  else if env.closeFails smartWorker.id then
    ⟨smartWorker, some closeFailure, [smartWorker.worker.gen]⟩
  else
    let queueName :=
      if newQueueType = QueueType.HIGH then "HighPriorityQueue" else "LowPriorityQueue"
    ⟨⟨createWorkerForQueue queueName newQueueType smartWorker.id
        (smartWorker.worker.gen + 1),
      newQueueType, smartWorker.id⟩,
      none, [smartWorker.worker.gen]⟩

/-- Observable outcome of one monitoring tick: the worker slots
afterwards, the interval handle afterwards, whether the HIGH depth was
read, and whether the catch block logged an error. -/
structure TickOut where
  workers : List SmartWorker
  interval : Option Nat
  depthRead : Bool
  errorCaught : Bool
deriving DecidableEq, Repr

/-- Embeds monitorAndRebalance (queue.ts lines 111-148): a pool whose size
is not 5 makes the tick return at once; a depth read that throws is caught
and logged; otherwise every worker is switched toward the computed target
concurrently, each switch taking effect independently, and any switch
rejection is caught and logged by the tick's catch block.  The tick never
throws and never touches the interval handle. -/
def monitorAndRebalance (env : Env) (st : PoolState) : TickOut :=
  if st.workers.length ≠ 5 then ⟨st.workers, st.interval, false, false⟩
  else
    match env.depthResult with
    | Except.error _ => ⟨st.workers, st.interval, true, true⟩
    | Except.ok highJobsCount =>
      let target := targetQueue highJobsCount
      ⟨st.workers.map (fun w => (switchWorkerToQueue env w target).worker),
        st.interval,
        true,
        st.workers.any (fun w => ((switchWorkerToQueue env w target).err).isSome)⟩

/-- Embeds shutdownWorkers (queue.ts lines 192-220): the monitoring
interval is cleared first; an empty pool returns at once; otherwise every
worker is closed, each close failure caught and logged per worker, and the
array is cleared — also force-cleared on any other error.  The function
never throws. -/
def shutdownWorkers (_env : Env) (st : PoolState) : PoolState :=
  if st.workers.length = 0 then ⟨st.workers, none⟩
  else ⟨[], none⟩

/-- The worker-creation loop of setupSmartWorkers (queue.ts lines
164-172): workers numbered from workerId upward, n of them, each
construction able to throw (propagating out, since the loop has no
catch). -/
def createLoop (env : Env) (workerId : Nat) : Nat → Except JsError (List SmartWorker)
  | 0 => Except.ok []
  | n + 1 =>
    if env.createFails workerId then Except.error ⟨"worker construction failed"⟩
    else
      match createLoop env (workerId + 1) n with
      | Except.ok ws =>
        Except.ok (⟨createWorkerForQueue "HighPriorityQueue" QueueType.HIGH workerId 0,
          QueueType.HIGH, workerId⟩ :: ws)
      | Except.error e => Except.error e

/-- Embeds setupSmartWorkers (queue.ts lines 150-186): any existing
workers are shut down first; exactly 5 workers are created on the HIGH
queue with ids 1 to 5; the verification check throws if the pool size is
not 5; the monitoring interval is started; and one initial rebalance tick
runs before returning. -/
def setupSmartWorkers (env : Env) (st : PoolState) : Except JsError PoolState :=
  let _st0 := if st.workers.length > 0 then shutdownWorkers env st else st
  match createLoop env 1 5 with
  | Except.error e => Except.error e
  | Except.ok ws =>
    if ws.length ≠ 5 then Except.error ⟨"Expected 5 workers"⟩
    else
      let st1 : PoolState := ⟨ws, some env.newIntervalId⟩
      let t := monitorAndRebalance env st1
      Except.ok ⟨t.workers, t.interval⟩

/- ===== Helper lemmas. -/

theorem isPrefixOf_append_self (l r : List Char) : l.isPrefixOf (l ++ r) = true := by
  induction l with
  | nil => simp [List.isPrefixOf]
  | cons a t ih => simp [List.isPrefixOf, ih]

theorem listContains_of_isPrefixOf (pat l : List Char) (h : pat.isPrefixOf l = true) :
    listContains pat l = true := by
  cases l with
  | nil => simpa [listContains] using h
  | cons a t => simp [listContains, h]

theorem takeWhile_append_stop (p : Char → Bool) (l r : List Char) (c : Char)
    (hl : ∀ a ∈ l, p a = true) (hc : p c = false) :
    (l ++ c :: r).takeWhile p = l := by
  induction l with
  | nil => simp [List.takeWhile_cons, hc]
  | cons a t ih =>
    have ha : p a = true := hl a (by simp)
    simp only [List.cons_append, List.takeWhile_cons, ha, if_true]
    rw [ih (fun x hx => hl x (by simp [hx]))]

theorem dropWhile_append_stop (p : Char → Bool) (l r : List Char) (c : Char)
    (hl : ∀ a ∈ l, p a = true) (hc : p c = false) :
    (l ++ c :: r).dropWhile p = c :: r := by
  induction l with
  | nil => simp [List.dropWhile_cons, hc]
  | cons a t ih =>
    have ha : p a = true := hl a (by simp)
    simp only [List.cons_append, List.dropWhile_cons, ha, if_true]
    exact ih (fun x hx => hl x (by simp [hx]))

theorem isDigit_digitChar (d : Nat) (h : d < 10) : (digitChar d).isDigit = true := by
  interval_cases d <;> decide

theorem charVal_digitChar (d : Nat) (h : d < 10) : charVal (digitChar d) = d := by
  interval_cases d <;> decide

theorem natToDecCharsAux_isDigit :
    ∀ (fuel n : Nat), ∀ c ∈ natToDecCharsAux fuel n, c.isDigit = true := by
  intro fuel
  induction fuel with
  | zero => intro n c hc; simp [natToDecCharsAux] at hc
  | succ f ih =>
    intro n c hc
    by_cases h : n = 0
    · simp [natToDecCharsAux, h] at hc
    · simp only [natToDecCharsAux, h, if_false, List.mem_append, List.mem_singleton] at hc
      rcases hc with hc | hc
      · exact ih _ _ hc
      · subst hc; exact isDigit_digitChar _ (Nat.mod_lt _ (by norm_num))

theorem natToDecChars_isDigit (n : Nat) : ∀ c ∈ natToDecChars n, c.isDigit = true := by
  intro c hc
  by_cases h : n = 0
  · simp [natToDecChars, h] at hc; subst hc; decide
  · simp only [natToDecChars, h, if_false] at hc
    exact natToDecCharsAux_isDigit n n c hc

theorem natToDecChars_ne_nil (n : Nat) : natToDecChars n ≠ [] := by
  by_cases h : n = 0
  · simp [natToDecChars, h]
  · obtain ⟨m, rfl⟩ : ∃ m, n = m + 1 := ⟨n - 1, by omega⟩
    simp [natToDecChars, natToDecCharsAux, h]

theorem digitsToNat_append_digit (l : List Char) (c : Char) :
    digitsToNat (l ++ [c]) = charVal c + 10 * digitsToNat l := by
  simp [digitsToNat, List.map_append, List.reverse_append, Nat.ofDigits_cons]

theorem digitsToNat_natToDecCharsAux :
    ∀ (fuel n : Nat), n ≤ fuel → digitsToNat (natToDecCharsAux fuel n) = n := by
  intro fuel
  induction fuel with
  | zero =>
    intro n h
    interval_cases n
    simp [natToDecCharsAux, digitsToNat, Nat.ofDigits]
  | succ f ih =>
    intro n h
    by_cases h0 : n = 0
    · subst h0; simp [natToDecCharsAux, digitsToNat, Nat.ofDigits]
    · have hdiv : n / 10 ≤ f := by
        have := Nat.div_lt_self (Nat.pos_of_ne_zero h0) (by norm_num : 1 < 10)
        omega
      simp only [natToDecCharsAux, h0, if_false]
      rw [digitsToNat_append_digit, ih (n / 10) hdiv,
        charVal_digitChar _ (Nat.mod_lt _ (by norm_num))]
      omega

theorem digitsToNat_natToDecChars (n : Nat) : digitsToNat (natToDecChars n) = n := by
  by_cases h : n = 0
  · subst h; decide
  · simp only [natToDecChars, h, if_false]
    exact digitsToNat_natToDecCharsAux n n le_rfl

theorem marker_split : n8nMarker = "N8N Error".data ++ [' '] := by decide

theorem strIncludes_n8nErrorMessage (status : Nat) (bodyText : String) :
    strIncludes (n8nErrorMessage status bodyText) "N8N Error" = true := by
  apply listContains_of_isPrefixOf
  have : (n8nErrorMessage status bodyText).data
      = "N8N Error".data ++ ([' '] ++ (natToDecChars status ++ ':' :: ' ' :: bodyText.data)) := by
    show n8nMarker ++ (natToDecChars status ++ ':' :: ' ' :: bodyText.data) = _
    rw [marker_split, List.append_assoc]
  rw [this]
  exact isPrefixOf_append_self _ _

theorem matchN8NAt_message (status : Nat) (bodyText : String)
    (hcap : takeLine bodyText.data ≠ []) :
    matchN8NAt (n8nErrorMessage status bodyText).data
      = some (status, String.mk (takeLine bodyText.data)) := by
  have hdata : (n8nErrorMessage status bodyText).data
      = n8nMarker ++ (natToDecChars status ++ ':' :: ' ' :: bodyText.data) := rfl
  unfold matchN8NAt
  rw [hdata, isPrefixOf_append_self, if_pos rfl]
  simp only [List.drop_left,
    takeWhile_append_stop Char.isDigit (natToDecChars status) (' ' :: bodyText.data) ':'
      (natToDecChars_isDigit status) (by decide),
    dropWhile_append_stop Char.isDigit (natToDecChars status) (' ' :: bodyText.data) ':'
      (natToDecChars_isDigit status) (by decide),
    if_neg (natToDecChars_ne_nil status), digitsToNat_natToDecChars]
  rw [if_neg hcap]

theorem matchN8N_of_matchN8NAt :
    ∀ (l : List Char) (r : Nat × String), matchN8NAt l = some r → matchN8N l = some r := by
  intro l r h
  cases l with
  | nil => rw [show matchN8NAt ([] : List Char) = none from by decide] at h; cases h
  | cons c cs =>
    unfold matchN8N
    rw [h]

theorem matchN8N_message (status : Nat) (bodyText : String)
    (hcap : takeLine bodyText.data ≠ []) :
    matchN8N (n8nErrorMessage status bodyText).data
      = some (status, String.mk (takeLine bodyText.data)) :=
  matchN8N_of_matchN8NAt _ _ (matchN8NAt_message status bodyText hcap)

theorem switchWorkerToQueue_ok (env : Env) (w : SmartWorker) (t : QueueType)
    (h : w.currentQueue = t ∨ env.closeFails w.id = false) :
    (switchWorkerToQueue env w t).worker.currentQueue = t ∧
    (switchWorkerToQueue env w t).err = none := by
  unfold switchWorkerToQueue
  by_cases h1 : w.currentQueue = t
  · simp [h1]
  · rcases h with h | h
    · exact absurd h h1
    · simp [h1, h, createWorkerForQueue]

theorem monitorAndRebalance_length (env : Env) (st : PoolState) :
    (monitorAndRebalance env st).workers.length = st.workers.length := by
  unfold monitorAndRebalance
  by_cases h : st.workers.length ≠ 5
  · rw [if_pos h]
  · rw [if_neg h]
    cases env.depthResult with
    | error e => rfl
    | ok d => simp

/- ===== The claims. -/

/-- C1: for every observed HIGH-queue depth d, the decision of a
rebalancer tick is LOW if and only if d is 0, and HIGH otherwise; the
three-branch decision of the code equals, as a function of d, the binary
policy written from the spec's words. -/
theorem targetQueue_binary_policy :
    ∀ d : Nat, (targetQueue d = QueueType.LOW ↔ d = 0) ∧
      targetQueue d = specBinaryTarget d := by
  intro d
  constructor
  · unfold targetQueue
    split_ifs with h1 h2
    · constructor
      · intro h; cases h
      · intro h; omega
    · simp [h2]
    · constructor
      · intro h; cases h
      · intro h; exact absurd h h2
  · unfold targetQueue specBinaryTarget
    split_ifs with h1 h2 h3 <;> first | rfl | omega

/-- C7: a worker whose current binding already equals the rebind target is
left completely untouched by switchWorkerToQueue: the same record is
returned, its underlying instance is not closed or recreated, and no
error arises. -/
theorem switch_noop_on_target (env : Env) (w : SmartWorker) (t : QueueType)
    (h : w.currentQueue = t) :
    switchWorkerToQueue env w t = ⟨w, none, []⟩ := by
  unfold switchWorkerToQueue
  rw [if_pos h]

/-- Witness for C7 at a concrete worker already bound to HIGH. -/
theorem switch_noop_on_target_witness :
    switchWorkerToQueue ⟨Except.ok 0, fun _ => false, fun _ => false, 1⟩
        ⟨⟨"HighPriorityQueue", QueueType.HIGH, 1, 0⟩, QueueType.HIGH, 1⟩ QueueType.HIGH
      = ⟨⟨⟨"HighPriorityQueue", QueueType.HIGH, 1, 0⟩, QueueType.HIGH, 1⟩, none, []⟩ :=
  switch_noop_on_target _ _ _ rfl

/-- C8: shutdownWorkers always leaves an empty pool with the monitoring
interval cleared — even when closing individual workers fails, since each
close failure is caught per worker — and a further call on the resulting
state is a no-op returning the same state, without error (the function is
total). -/
theorem shutdownWorkers_idempotent_empties :
    ∀ (env : Env) (st : PoolState),
      (shutdownWorkers env st).workers = [] ∧
      (shutdownWorkers env st).interval = none ∧
      ∀ env2 : Env, shutdownWorkers env2 (shutdownWorkers env st) = shutdownWorkers env st := by
  intro env st
  have h : shutdownWorkers env st = ⟨[], none⟩ := by
    unfold shutdownWorkers
    by_cases h0 : st.workers.length = 0
    · rw [if_pos h0]
      simp [List.eq_nil_of_length_eq_zero h0]
    · rw [if_neg h0]
  rw [h]
  exact ⟨rfl, rfl, fun env2 => rfl⟩

/-- C9: a monitoring tick observing a pool whose size is not 5 returns at
once: it does not read the HIGH depth, logs no tick error, and leaves the
workers and the interval handle exactly as they were. -/
theorem tick_skips_on_bad_pool_size :
    ∀ (env : Env) (st : PoolState), st.workers.length ≠ 5 →
      monitorAndRebalance env st = ⟨st.workers, st.interval, false, false⟩ := by
  intro env st h
  unfold monitorAndRebalance
  rw [if_pos h]

/-- Witness for C9 at a concrete one-worker pool. -/
theorem tick_skips_on_bad_pool_size_witness :
    monitorAndRebalance ⟨Except.ok 9, fun _ => false, fun _ => false, 1⟩
        ⟨[⟨⟨"HighPriorityQueue", QueueType.HIGH, 1, 0⟩, QueueType.HIGH, 1⟩], some 1⟩
      = ⟨[⟨⟨"HighPriorityQueue", QueueType.HIGH, 1, 0⟩, QueueType.HIGH, 1⟩], some 1,
          false, false⟩ :=
  tick_skips_on_bad_pool_size _ _ (by decide)

/-- C3: a monitoring tick that completes without error — the pool has its
5 workers, the depth read succeeds, and no close call of a worker that
must move fails — leaves every worker in the pool bound to the single
target computed from the observed depth. -/
theorem tick_full_convergence :
    ∀ (env : Env) (st : PoolState) (d : Nat),
      st.workers.length = 5 →
      env.depthResult = Except.ok d →
      (∀ w ∈ st.workers, w.currentQueue ≠ targetQueue d → env.closeFails w.id = false) →
      (monitorAndRebalance env st).errorCaught = false ∧
      ∀ w ∈ (monitorAndRebalance env st).workers, w.currentQueue = targetQueue d := by
  intro env st d h5 hd hok
  have hbranch : ∀ w ∈ st.workers,
      w.currentQueue = targetQueue d ∨ env.closeFails w.id = false := by
    intro w hw
    by_cases hcq : w.currentQueue = targetQueue d
    · exact Or.inl hcq
    · exact Or.inr (hok w hw hcq)
  unfold monitorAndRebalance
  rw [if_neg (by omega : ¬st.workers.length ≠ 5), hd]
  constructor
  · simp only [List.any_eq_false]
    intro w hw
    rw [(switchWorkerToQueue_ok env w (targetQueue d) (hbranch w hw)).2]
    simp
  · intro w hw
    simp only [List.mem_map] at hw
    obtain ⟨x, hx, rfl⟩ := hw
    exact (switchWorkerToQueue_ok env x (targetQueue d) (hbranch x hx)).1

/-- Witness for C3: five workers on LOW, observed depth 7, no failing
close calls; every worker ends on HIGH and no error is logged. -/
theorem tick_full_convergence_witness :
    (monitorAndRebalance ⟨Except.ok 7, fun _ => false, fun _ => false, 1⟩
        ⟨[⟨⟨"LowPriorityQueue", QueueType.LOW, 1, 0⟩, QueueType.LOW, 1⟩,
          ⟨⟨"LowPriorityQueue", QueueType.LOW, 2, 0⟩, QueueType.LOW, 2⟩,
          ⟨⟨"LowPriorityQueue", QueueType.LOW, 3, 0⟩, QueueType.LOW, 3⟩,
          ⟨⟨"LowPriorityQueue", QueueType.LOW, 4, 0⟩, QueueType.LOW, 4⟩,
          ⟨⟨"LowPriorityQueue", QueueType.LOW, 5, 0⟩, QueueType.LOW, 5⟩], some 1⟩).errorCaught
      = false ∧
    ∀ w ∈ (monitorAndRebalance ⟨Except.ok 7, fun _ => false, fun _ => false, 1⟩
        ⟨[⟨⟨"LowPriorityQueue", QueueType.LOW, 1, 0⟩, QueueType.LOW, 1⟩,
          ⟨⟨"LowPriorityQueue", QueueType.LOW, 2, 0⟩, QueueType.LOW, 2⟩,
          ⟨⟨"LowPriorityQueue", QueueType.LOW, 3, 0⟩, QueueType.LOW, 3⟩,
          ⟨⟨"LowPriorityQueue", QueueType.LOW, 4, 0⟩, QueueType.LOW, 4⟩,
          ⟨⟨"LowPriorityQueue", QueueType.LOW, 5, 0⟩, QueueType.LOW, 5⟩], some 1⟩).workers,
      w.currentQueue = targetQueue 7 :=
  tick_full_convergence _ _ 7 (by decide) rfl (fun w _ _ => rfl)

/-- C6 counterexample: with five workers on LOW, an observed depth of 3
(target HIGH) and a close call that fails for worker 1 only, the tick
catches and logs the error, yet the workers are not left as they were
before the tick: workers 2 to 5 are switched to HIGH while worker 1 stays
on LOW, refuting atomicity on error. -/
theorem tick_error_counterexample :
    (monitorAndRebalance ⟨Except.ok 3, fun i => i == 1, fun _ => false, 1⟩
        ⟨[⟨⟨"LowPriorityQueue", QueueType.LOW, 1, 0⟩, QueueType.LOW, 1⟩,
          ⟨⟨"LowPriorityQueue", QueueType.LOW, 2, 0⟩, QueueType.LOW, 2⟩,
          ⟨⟨"LowPriorityQueue", QueueType.LOW, 3, 0⟩, QueueType.LOW, 3⟩,
          ⟨⟨"LowPriorityQueue", QueueType.LOW, 4, 0⟩, QueueType.LOW, 4⟩,
          ⟨⟨"LowPriorityQueue", QueueType.LOW, 5, 0⟩, QueueType.LOW, 5⟩], some 1⟩).errorCaught
      = true ∧
    (monitorAndRebalance ⟨Except.ok 3, fun i => i == 1, fun _ => false, 1⟩
        ⟨[⟨⟨"LowPriorityQueue", QueueType.LOW, 1, 0⟩, QueueType.LOW, 1⟩,
          ⟨⟨"LowPriorityQueue", QueueType.LOW, 2, 0⟩, QueueType.LOW, 2⟩,
          ⟨⟨"LowPriorityQueue", QueueType.LOW, 3, 0⟩, QueueType.LOW, 3⟩,
          ⟨⟨"LowPriorityQueue", QueueType.LOW, 4, 0⟩, QueueType.LOW, 4⟩,
          ⟨⟨"LowPriorityQueue", QueueType.LOW, 5, 0⟩, QueueType.LOW, 5⟩], some 1⟩).workers
      ≠ [⟨⟨"LowPriorityQueue", QueueType.LOW, 1, 0⟩, QueueType.LOW, 1⟩,
          ⟨⟨"LowPriorityQueue", QueueType.LOW, 2, 0⟩, QueueType.LOW, 2⟩,
          ⟨⟨"LowPriorityQueue", QueueType.LOW, 3, 0⟩, QueueType.LOW, 3⟩,
          ⟨⟨"LowPriorityQueue", QueueType.LOW, 4, 0⟩, QueueType.LOW, 4⟩,
          ⟨⟨"LowPriorityQueue", QueueType.LOW, 5, 0⟩, QueueType.LOW, 5⟩] := by
  constructor
  · rfl
  · decide

/-- C6 (amended): an erroring tick is caught — the tick function returns
normally, so the periodic timer keeps running — and the interval handle is
untouched; an error while reading the HIGH depth leaves the workers
exactly as they were; but an error while switching is not atomic: each
worker is independently either left with its old record (its own close
failed, or it was already at the target) or fully switched to the tick's
target. -/
theorem tick_error_isolation :
    ∀ (env : Env) (st : PoolState), st.workers.length = 5 →
      ((∃ e, env.depthResult = Except.error e) →
          monitorAndRebalance env st = ⟨st.workers, st.interval, true, true⟩) ∧
      (∀ d, env.depthResult = Except.ok d →
          (monitorAndRebalance env st).interval = st.interval ∧
          (monitorAndRebalance env st).workers
            = st.workers.map (fun w => (switchWorkerToQueue env w (targetQueue d)).worker) ∧
          ∀ w ∈ st.workers,
            (switchWorkerToQueue env w (targetQueue d)).worker = w ∨
            (switchWorkerToQueue env w (targetQueue d)).worker.currentQueue = targetQueue d) := by
  intro env st h5
  constructor
  · rintro ⟨e, he⟩
    unfold monitorAndRebalance
    rw [if_neg (by omega : ¬st.workers.length ≠ 5), he]
  · intro d hd
    unfold monitorAndRebalance
    rw [if_neg (by omega : ¬st.workers.length ≠ 5), hd]
    refine ⟨rfl, rfl, ?_⟩
    intro w _
    unfold switchWorkerToQueue
    by_cases h1 : w.currentQueue = targetQueue d
    · rw [if_pos h1]; exact Or.inl rfl
    · rw [if_neg h1]
      by_cases h2 : env.closeFails w.id
      · rw [if_pos h2]; exact Or.inl rfl
      · rw [if_neg h2]; exact Or.inr rfl

/-- Witness for C6 at two concrete inputs: a depth read that throws
leaves a five-worker LOW pool untouched with the error logged; a depth
read of 0 keeps the interval and gives the per-worker dichotomy. -/
theorem tick_error_isolation_witness :
    monitorAndRebalance ⟨Except.error ⟨"redis down"⟩, fun _ => false, fun _ => false, 1⟩
        ⟨[⟨⟨"LowPriorityQueue", QueueType.LOW, 1, 0⟩, QueueType.LOW, 1⟩,
          ⟨⟨"LowPriorityQueue", QueueType.LOW, 2, 0⟩, QueueType.LOW, 2⟩,
          ⟨⟨"LowPriorityQueue", QueueType.LOW, 3, 0⟩, QueueType.LOW, 3⟩,
          ⟨⟨"LowPriorityQueue", QueueType.LOW, 4, 0⟩, QueueType.LOW, 4⟩,
          ⟨⟨"LowPriorityQueue", QueueType.LOW, 5, 0⟩, QueueType.LOW, 5⟩], some 1⟩
      = ⟨[⟨⟨"LowPriorityQueue", QueueType.LOW, 1, 0⟩, QueueType.LOW, 1⟩,
          ⟨⟨"LowPriorityQueue", QueueType.LOW, 2, 0⟩, QueueType.LOW, 2⟩,
          ⟨⟨"LowPriorityQueue", QueueType.LOW, 3, 0⟩, QueueType.LOW, 3⟩,
          ⟨⟨"LowPriorityQueue", QueueType.LOW, 4, 0⟩, QueueType.LOW, 4⟩,
          ⟨⟨"LowPriorityQueue", QueueType.LOW, 5, 0⟩, QueueType.LOW, 5⟩], some 1, true, true⟩ ∧
    (monitorAndRebalance ⟨Except.ok 0, fun _ => false, fun _ => false, 1⟩
        ⟨[⟨⟨"HighPriorityQueue", QueueType.HIGH, 1, 0⟩, QueueType.HIGH, 1⟩,
          ⟨⟨"HighPriorityQueue", QueueType.HIGH, 2, 0⟩, QueueType.HIGH, 2⟩,
          ⟨⟨"HighPriorityQueue", QueueType.HIGH, 3, 0⟩, QueueType.HIGH, 3⟩,
          ⟨⟨"HighPriorityQueue", QueueType.HIGH, 4, 0⟩, QueueType.HIGH, 4⟩,
          ⟨⟨"HighPriorityQueue", QueueType.HIGH, 5, 0⟩, QueueType.HIGH, 5⟩], some 2⟩).interval
      = some 2 :=
  ⟨(tick_error_isolation _ _ (by decide)).1 ⟨⟨"redis down"⟩, rfl⟩,
    ((tick_error_isolation _ _ (by decide)).2 0 rfl).1⟩

/-- C4 counterexample: with no construction failures and an observed HIGH
depth of 0, setupSmartWorkers returns successfully, yet the returned pool
is entirely bound to LOW, not HIGH: the initial rebalance run before
returning retargets the freshly created HIGH-bound workers. -/
theorem setup_returns_low_counterexample :
    Except.map (fun st => st.workers.map SmartWorker.currentQueue)
        (setupSmartWorkers ⟨Except.ok 0, fun _ => false, fun _ => false, 1⟩ ⟨[], none⟩)
      = Except.ok [QueueType.LOW, QueueType.LOW, QueueType.LOW, QueueType.LOW, QueueType.LOW] ∧
    QueueType.LOW ≠ QueueType.HIGH := by
  exact ⟨rfl, by decide⟩

/-- C4 (amended): the worker-creation loop either throws (a construction
failure propagates, the setup fails fatally) or yields exactly the
requested number of workers, every one bound to HIGH; and a
setupSmartWorkers call that returns successfully always returns a pool of
exactly 5 workers — never a silently smaller pool — whose bindings are
those left by the initial rebalance tick. -/
theorem setup_pool_size_and_construction :
    (∀ (env : Env) (workerId n : Nat) (ws : List SmartWorker),
        createLoop env workerId n = Except.ok ws →
        ws.length = n ∧ ∀ w ∈ ws, w.currentQueue = QueueType.HIGH) ∧
    (∀ (env : Env) (st out : PoolState),
        setupSmartWorkers env st = Except.ok out → out.workers.length = 5) := by
  constructor
  · intro env workerId n
    induction n generalizing workerId with
    | zero =>
      intro ws h
      unfold createLoop at h
      cases h
      exact ⟨rfl, by intro w hw; cases hw⟩
    | succ m ih =>
      intro ws h
      unfold createLoop at h
      by_cases hc : env.createFails workerId
      · rw [if_pos hc] at h; cases h
      · rw [if_neg hc] at h
        cases hrec : createLoop env (workerId + 1) m with
        | error e => rw [hrec] at h; cases h
        | ok ws0 =>
          rw [hrec] at h
          cases h
          obtain ⟨hlen, hall⟩ := ih (workerId + 1) ws0 hrec
          constructor
          · simp [hlen]
          · intro w hw
            rcases List.mem_cons.mp hw with hw | hw
            · subst hw; rfl
            · exact hall w hw
  · intro env st out h
    unfold setupSmartWorkers at h
    cases hc : createLoop env 1 5 with
    | error e => rw [hc] at h; dsimp only at h; cases h
    | ok ws =>
      rw [hc] at h
      dsimp only at h
      by_cases hlen : ws.length ≠ 5
      · rw [if_pos hlen] at h; cases h
      · rw [if_neg hlen] at h
        cases h
        rw [monitorAndRebalance_length]
        dsimp only
        omega

/-- Witness for C4 at concrete inputs: the creation loop yields the five
HIGH-bound workers, and a successful setup with observed depth 0 returns
a pool of exactly 5 workers. -/
theorem setup_pool_size_witness :
    (([⟨⟨"HighPriorityQueue", QueueType.HIGH, 1, 0⟩, QueueType.HIGH, 1⟩,
        ⟨⟨"HighPriorityQueue", QueueType.HIGH, 2, 0⟩, QueueType.HIGH, 2⟩,
        ⟨⟨"HighPriorityQueue", QueueType.HIGH, 3, 0⟩, QueueType.HIGH, 3⟩,
        ⟨⟨"HighPriorityQueue", QueueType.HIGH, 4, 0⟩, QueueType.HIGH, 4⟩,
        ⟨⟨"HighPriorityQueue", QueueType.HIGH, 5, 0⟩, QueueType.HIGH, 5⟩] :
          List SmartWorker).length = 5 ∧
      ∀ w ∈ ([⟨⟨"HighPriorityQueue", QueueType.HIGH, 1, 0⟩, QueueType.HIGH, 1⟩,
        ⟨⟨"HighPriorityQueue", QueueType.HIGH, 2, 0⟩, QueueType.HIGH, 2⟩,
        ⟨⟨"HighPriorityQueue", QueueType.HIGH, 3, 0⟩, QueueType.HIGH, 3⟩,
        ⟨⟨"HighPriorityQueue", QueueType.HIGH, 4, 0⟩, QueueType.HIGH, 4⟩,
        ⟨⟨"HighPriorityQueue", QueueType.HIGH, 5, 0⟩, QueueType.HIGH, 5⟩] :
          List SmartWorker), w.currentQueue = QueueType.HIGH) ∧
    (⟨[⟨⟨"LowPriorityQueue", QueueType.LOW, 1, 1⟩, QueueType.LOW, 1⟩,
        ⟨⟨"LowPriorityQueue", QueueType.LOW, 2, 1⟩, QueueType.LOW, 2⟩,
        ⟨⟨"LowPriorityQueue", QueueType.LOW, 3, 1⟩, QueueType.LOW, 3⟩,
        ⟨⟨"LowPriorityQueue", QueueType.LOW, 4, 1⟩, QueueType.LOW, 4⟩,
        ⟨⟨"LowPriorityQueue", QueueType.LOW, 5, 1⟩, QueueType.LOW, 5⟩], some 1⟩ :
          PoolState).workers.length = 5 :=
  ⟨setup_pool_size_and_construction.1 ⟨Except.ok 0, fun _ => false, fun _ => false, 1⟩ 1 5 _ rfl,
    setup_pool_size_and_construction.2 ⟨Except.ok 0, fun _ => false, fun _ => false, 1⟩
      ⟨[], none⟩ _ rfl⟩

/-- C2: the job processor signals every downstream failure (transport
rejection or non-ok downstream status) to the queue layer by re-throwing
rather than resolving with a success-shaped value; under the configured
retry policy (cap 3, exponential backoff base 2000 ms), a run whose first
two attempts fail downstream and whose third attempt succeeds delivers
the attempt-3 success to the blocked caller, after backoff delays of
2000 ms and 4000 ms. -/
theorem processor_rethrows_and_retries :
    (∀ r : FetchOutcome, downstreamFailed r → ∃ e, processWebhookJob r = Except.error e) ∧
    (∀ (resp : Nat → FetchOutcome) (v : JobResult),
        downstreamFailed (resp 1) → downstreamFailed (resp 2) →
        processWebhookJob (resp 3) = Except.ok v →
        runJob resp = (Except.ok v, [2000, 4000])) := by
  have hfail : ∀ r : FetchOutcome, downstreamFailed r →
      ∃ e, processWebhookJob r = Except.error e := by
    intro r h
    rcases h with ⟨msg, rfl⟩ | ⟨status, bodyText, rfl, hst⟩
    · exact ⟨⟨msg⟩, rfl⟩
    · refine ⟨⟨n8nErrorMessage status bodyText⟩, ?_⟩
      simp [processWebhookJob, hst]
  refine ⟨hfail, ?_⟩
  intro resp v h1 h2 h3
  obtain ⟨e1, he1⟩ := hfail (resp 1) h1
  obtain ⟨e2, he2⟩ := hfail (resp 2) h2
  unfold runJob jobAttempts runJobAttempts
  rw [he1]
  unfold runJobAttempts
  rw [he2]
  unfold runJobAttempts
  rw [h3]
  norm_num [jobBackoffDelay]

/-- Witness for C2: transport failure on attempt 1, downstream 503 on
attempt 2, success with a JSON body on attempt 3. -/
theorem processor_rethrows_and_retries_witness :
    runJob (fun k => if k = 1 then FetchOutcome.rejected "fetch failed"
        else if k = 2 then FetchOutcome.resolved 503 "overloaded"
        else FetchOutcome.resolved 200 "true")
      = (Except.ok ⟨true, 200, Json.jbool true⟩, [2000, 4000]) :=
  processor_rethrows_and_retries.2 _ _
    (Or.inl ⟨"fetch failed", rfl⟩)
    (Or.inr ⟨503, "overloaded", rfl, rfl⟩)
    rfl

/-- C10 counterexample: with id present and email present but equal to
the empty string — both parameters present — the legacy endpoint replies
400 and enqueues nothing, because the handler tests JavaScript falsiness,
not absence; the claim's both-present clause says one job would be
enqueued with an ok reply. -/
theorem addjob_counterexample :
    (some "1" : Option String).isSome = true ∧
    (some "" : Option String).isSome = true ∧
    addJobHandler ⟨some "1", some ""⟩
      = (⟨400, ReplyBody.addJobError "Requests must contain both an id and a email"⟩, []) :=
  ⟨rfl, rfl, rfl⟩

/-- C10 (amended): when the id or the email query parameter is missing or
empty, the legacy endpoint responds 400 with the error body and enqueues
nothing; when both are present and non-empty it enqueues exactly one job
named TestJob-id carrying the email and id onto the HIGH-priority queue
and responds ok. -/
theorem addjob_validation :
    ∀ q : AddJobQuery,
      ((q.id = none ∨ q.id = some "" ∨ q.email = none ∨ q.email = some "") →
          (addJobHandler q).1.status = 400 ∧ (addJobHandler q).2 = []) ∧
      (∀ pid pemail, q.id = some pid → q.email = some pemail →
          pid ≠ "" → pemail ≠ "" →
          addJobHandler q = (⟨200, ReplyBody.okTrue⟩,
            [⟨QueueType.HIGH, "TestJob-" ++ pid, pemail, pid⟩])) := by
  intro q
  constructor
  · intro h
    have hfal : (jsFalsyStr q.email || jsFalsyStr q.id) = true := by
      rcases h with h | h | h | h <;> simp [jsFalsyStr, h]
    simp [addJobHandler, hfal]
  · intro pid pemail hid hemail hpid hpemail
    simp [addJobHandler, jsFalsyStr, hid, hemail, hpid, hpemail]

/-- Witness for C10: a missing id yields the 400 path; id 7 with email a
yields exactly one enqueued HIGH job and the ok reply. -/
theorem addjob_validation_witness :
    ((addJobHandler ⟨none, some "x"⟩).1.status = 400 ∧
      (addJobHandler ⟨none, some "x"⟩).2 = []) ∧
    addJobHandler ⟨some "7", some "a"⟩
      = (⟨200, ReplyBody.okTrue⟩, [⟨QueueType.HIGH, "TestJob-" ++ "7", "a", "7"⟩]) :=
  ⟨(addjob_validation ⟨none, some "x"⟩).1 (Or.inl rfl),
    (addjob_validation ⟨some "7", some "a"⟩).2 "7" "a" rfl rfl (by decide) (by decide)⟩

/-- C5 counterexample: the downstream rejects with status 404 and the
non-JSON body text not-found; the processor throws the corresponding N8N
Error, but the handler's relay attempt calls JSON.parse on the captured
body, which throws, escapes the handler, and the caller receives the
framework's 500 — not the downstream's own 404 and body as the claim
states. -/
theorem webhook_relay_counterexample :
    processWebhookJob (FetchOutcome.resolved 404 "not found")
      = Except.error ⟨"N8N Error 404: not found"⟩ ∧
    (webhookResponse (Except.error ⟨"N8N Error 404: not found"⟩)).status = 500 ∧
    (500 : Nat) ≠ 404 :=
  ⟨rfl, rfl, by decide⟩

/-- C5 (amended): a downstream rejection with status s and body text b
makes the processor throw the N8N Error message for s and b; the handler
relays the downstream's own status with the re-parsed body exactly when
the first line of b is non-empty and parses as JSON (so the relay is up
to JSON re-serialization, not byte-verbatim); when that first line does
not parse as JSON the caller receives a 500 instead of the relayed
status; every terminal failure whose message does not contain N8N Error
yields the structured 500; and a resolved success is sent with its own
status and data.  In every case the caller receives one well-formed
response. -/
theorem webhook_response_mapping :
    ∀ (status : Nat) (bodyText : String), resOk status = false →
      (processWebhookJob (FetchOutcome.resolved status bodyText)
          = Except.error ⟨n8nErrorMessage status bodyText⟩) ∧
      (∀ j, jsonParse (String.mk (takeLine bodyText.data)) = some j →
          takeLine bodyText.data ≠ [] →
          webhookResponse (Except.error ⟨n8nErrorMessage status bodyText⟩)
            = ⟨status, ReplyBody.json j⟩) ∧
      (jsonParse (String.mk (takeLine bodyText.data)) = none →
          takeLine bodyText.data ≠ [] →
          (webhookResponse (Except.error ⟨n8nErrorMessage status bodyText⟩)).status = 500) ∧
      (∀ e : JsError, strIncludes e.message "N8N Error" = false →
          webhookResponse (Except.error e) = ⟨500, ReplyBody.internalError e.message⟩) ∧
      (∀ r : JobResult, r.success = true →
          webhookResponse (Except.ok r)
            = ⟨(if r.status = 0 then 200 else r.status), ReplyBody.json r.data⟩) := by
  intro status bodyText hres
  refine ⟨by simp [processWebhookJob, hres], ?_, ?_, ?_, ?_⟩
  · intro j hparse hcapne
    unfold webhookResponse highPriorityHandler
    dsimp only
    rw [strIncludes_n8nErrorMessage status bodyText, if_pos rfl,
      matchN8N_message status bodyText hcapne]
    dsimp only
    rw [hparse]
    rfl
  · intro hparse hcapne
    unfold webhookResponse highPriorityHandler
    dsimp only
    rw [strIncludes_n8nErrorMessage status bodyText, if_pos rfl,
      matchN8N_message status bodyText hcapne]
    dsimp only
    rw [hparse]
    rfl
  · intro e he
    simp [webhookResponse, highPriorityHandler, serverResponse, he]
  · intro r hr
    simp [webhookResponse, highPriorityHandler, serverResponse, hr]

/-- Witness for C5: a 404 rejection whose recorded body is the JSON text
of an empty array is relayed with status 404 and the parsed body. -/
theorem webhook_response_mapping_witness :
    webhookResponse (Except.error ⟨n8nErrorMessage 404 "[]"⟩)
      = ⟨404, ReplyBody.json (Json.jarr [])⟩ :=
  (webhook_response_mapping 404 "[]" (by decide)).2.1 (Json.jarr []) rfl (by decide)

/-- Witness for C1 at the concrete depths 0 and 3. -/
theorem targetQueue_binary_policy_witness :
    ((targetQueue 0 = QueueType.LOW ↔ (0 : Nat) = 0) ∧
      targetQueue 0 = specBinaryTarget 0) ∧
    ((targetQueue 3 = QueueType.LOW ↔ (3 : Nat) = 0) ∧
      targetQueue 3 = specBinaryTarget 3) :=
  ⟨targetQueue_binary_policy 0, targetQueue_binary_policy 3⟩

/-- Witness for C8 at a concrete two-worker pool with a close call that
fails, and a live interval. -/
theorem shutdownWorkers_idempotent_empties_witness :
    (shutdownWorkers ⟨Except.ok 0, fun i => i == 1, fun _ => false, 1⟩
        ⟨[⟨⟨"HighPriorityQueue", QueueType.HIGH, 1, 0⟩, QueueType.HIGH, 1⟩,
          ⟨⟨"HighPriorityQueue", QueueType.HIGH, 2, 0⟩, QueueType.HIGH, 2⟩], some 4⟩).workers
      = [] ∧
    (shutdownWorkers ⟨Except.ok 0, fun i => i == 1, fun _ => false, 1⟩
        ⟨[⟨⟨"HighPriorityQueue", QueueType.HIGH, 1, 0⟩, QueueType.HIGH, 1⟩,
          ⟨⟨"HighPriorityQueue", QueueType.HIGH, 2, 0⟩, QueueType.HIGH, 2⟩], some 4⟩).interval
      = none ∧
    ∀ env2 : Env,
      shutdownWorkers env2 (shutdownWorkers ⟨Except.ok 0, fun i => i == 1, fun _ => false, 1⟩
        ⟨[⟨⟨"HighPriorityQueue", QueueType.HIGH, 1, 0⟩, QueueType.HIGH, 1⟩,
          ⟨⟨"HighPriorityQueue", QueueType.HIGH, 2, 0⟩, QueueType.HIGH, 2⟩], some 4⟩)
      = shutdownWorkers ⟨Except.ok 0, fun i => i == 1, fun _ => false, 1⟩
        ⟨[⟨⟨"HighPriorityQueue", QueueType.HIGH, 1, 0⟩, QueueType.HIGH, 1⟩,
          ⟨⟨"HighPriorityQueue", QueueType.HIGH, 2, 0⟩, QueueType.HIGH, 2⟩], some 4⟩ :=
  shutdownWorkers_idempotent_empties _ _
